import Mathlib

/-!
Shallow embedding of `splitwise_mcp.py`, a Splitwise MCP server: a JSON value
model, the payload construction of `SplitwiseClient.create_expense`, the
pydantic response models and their validation, the four client operations and
the four exposed tools, together with theorems checking the repository's
specification against this embedding.

HTTP is modelled by passing the upstream response explicitly; each client
operation returns its result together with the list of requests it issued, so
that "no network call was attempted" is expressible as an empty request list.
-/

/-- JSON values, as produced by `response.json()` and consumed by the payload
dictionaries (Python dicts are modelled as ordered association lists). -/
inductive JValue where
  | null
  | bool (b : Bool)
  | int (n : Int)
  | str (s : String)
  | obj (fields : List (String × JValue))
  | arr (elems : List JValue)

/-- A Python dict with string keys, in insertion order. -/
abbrev PyDict := List (String × JValue)

/-- Python truthiness of an `Optional[str]`: `None` and `""` are falsy. -/
def pyTruthyOptStr : Option String → Bool
  | none => false
  | some s => s != ""

/-- Python truthiness of an `Optional[int]`: `None` and `0` are falsy. -/
def pyTruthyOptInt : Option Int → Bool
  | none => false
  | some n => n != 0

/-- Python truthiness of an optional list: `None` and `[]` are falsy. -/
def pyTruthyOptList : Option (List α) → Bool
  | none => false
  | some l => !l.isEmpty

/-- The Unicode whitespace class of Python's `str.isspace()`, which is also
the class stripped by `str.strip()`: 0x09-0x0d (tab through carriage
return), 0x1c-0x1f (the separator controls), space, 0x85 (next line),
0xa0 (no-break space), 0x1680 (Ogham space mark), 0x2000-0x200a (the en
quad through hair space range), 0x2028 and 0x2029 (line and paragraph
separators), 0x202f (narrow no-break space), 0x205f (medium mathematical
space) and 0x3000 (ideographic space). -/
def pyIsSpace (c : Char) : Bool :=
  decide ((0x09 ≤ c.toNat ∧ c.toNat ≤ 0x0d) ∨ (0x1c ≤ c.toNat ∧ c.toNat ≤ 0x1f) ∨
    c.toNat = 0x20 ∨ c.toNat = 0x85 ∨ c.toNat = 0xa0 ∨ c.toNat = 0x1680 ∨
    (0x2000 ≤ c.toNat ∧ c.toNat ≤ 0x200a) ∨ c.toNat = 0x2028 ∨ c.toNat = 0x2029 ∨
    c.toNat = 0x202f ∨ c.toNat = 0x205f ∨ c.toNat = 0x3000)

/-- The character-list core of Python's `str.strip()`: drop whitespace from
the front, then from the back. -/
def stripChars (l : List Char) : List Char :=
  (((l.dropWhile pyIsSpace).reverse.dropWhile pyIsSpace).reverse)

/-- Python's `str.strip()`. -/
def pyStrip (s : String) : String :=
  String.mk (stripChars s.data)

/-- Python's `last_name or ''` (an empty or `None` last name yields `''`). -/
def pyOrEmpty : Option String → String
  | none => ""
  | some s => if s = "" then "" else s

/-- The full-name derivation shared by all three user projections:
the Python expression is the f-string of first name, a space and
`last_name or ''`, followed by `.strip()`. -/
def fullName (first : String) (last : Option String) : String :=
  pyStrip (first ++ " " ++ pyOrEmpty last)

/-- Decimal digit list of a natural number, as produced by Python's string
interpolation of the `enumerate` index. -/
def natToDec (n : Nat) : List Char :=
  if n < 10 then [Nat.digitChar n]
  else natToDec (n / 10) ++ [Nat.digitChar (n % 10)]
decreasing_by exact Nat.div_lt_self (by omega) (by omega)

/-- Decimal rendering of a natural number as a string. -/
def natToStr (n : Nat) : String :=
  String.mk (natToDec n)

/-- Value of a decimal digit list (left inverse of `natToDec`). -/
def decVal (l : List Char) : Nat :=
  l.foldl (fun a c => 10 * a + (c.toNat - 48)) 0

theorem digitChar_toNat_sub (m : Nat) (h : m < 10) : (Nat.digitChar m).toNat - 48 = m := by
  interval_cases m <;> decide

theorem decVal_append_digit (l : List Char) (c : Char) :
    decVal (l ++ [c]) = 10 * decVal l + (c.toNat - 48) := by
  simp [decVal, List.foldl_append]

theorem decVal_natToDec (n : Nat) : decVal (natToDec n) = n := by
  induction n using Nat.strong_induction_on with
  | _ n ih =>
    rw [natToDec]
    by_cases h : n < 10
    · simp only [h, if_true]
      simp [decVal, digitChar_toNat_sub n h]
    · simp only [h, if_false]
      rw [decVal_append_digit]
      rw [ih (n / 10) (Nat.div_lt_self (by omega) (by omega))]
      rw [digitChar_toNat_sub (n % 10) (Nat.mod_lt _ (by omega))]
      omega

theorem natToDec_injective {a b : Nat} (h : natToDec a = natToDec b) : a = b := by
  have := congrArg decVal h
  rwa [decVal_natToDec, decVal_natToDec] at this

theorem digitChar_ne_underscore (m : Nat) (h : m < 10) : Nat.digitChar m ≠ '_' := by
  interval_cases m <;> decide

theorem natToDec_no_underscore (n : Nat) : ∀ c ∈ natToDec n, c ≠ '_' := by
  induction n using Nat.strong_induction_on with
  | _ n ih =>
    rw [natToDec]
    by_cases h : n < 10
    · simp only [h, if_true]
      intro c hc
      simp at hc
      subst hc
      exact digitChar_ne_underscore n h
    · simp only [h, if_false]
      intro c hc
      rcases List.mem_append.mp hc with h1 | h2
      · exact ih (n / 10) (Nat.div_lt_self (by omega) (by omega)) c h1
      · simp at h2
        subst h2
        exact digitChar_ne_underscore (n % 10) (Nat.mod_lt _ (by omega))

/-- Two underscore-free prefixes followed by an underscore-separated tail
agree segment by segment. -/
theorem underscore_separation :
    ∀ (l1 l2 r1 r2 : List Char), (∀ c ∈ l1, c ≠ '_') → (∀ c ∈ l2, c ≠ '_') →
      l1 ++ '_' :: r1 = l2 ++ '_' :: r2 → l1 = l2 ∧ r1 = r2 := by
  intro l1
  induction l1 with
  | nil =>
    intro l2 r1 r2 _ h2 heq
    cases l2 with
    | nil => simpa using heq
    | cons d t =>
      simp at heq
      exact absurd heq.1.symm (h2 d (by simp))
  | cons c t ih =>
    intro l2 r1 r2 h1 h2 heq
    cases l2 with
    | nil =>
      simp at heq
      exact absurd heq.1 (h1 c (by simp))
    | cons d t2 =>
      simp at heq
      obtain ⟨hcd, htail⟩ := heq
      have := ih t2 r1 r2 (fun x hx => h1 x (by simp [hx])) (fun x hx => h2 x (by simp [hx])) htail
      exact ⟨by simp [hcd, this.1], this.2⟩

/-- The flattened field name `users__<i>__<field>` used by
`SplitwiseClient.create_expense` for participant shares. -/
def userKey (i : Nat) (f : String) : String :=
  "users__" ++ natToStr i ++ "__" ++ f

/-- One conditionally present payload entry (`if key in user: payload[k] = v`). -/
def optEntry (k : String) (o : Option JValue) : PyDict :=
  match o with
  | some v => [(k, v)]
  | none => []

/-- The three flattened fields contributed by the participant dict at index
`i`: each of `user_id`, `paid_share`, `owed_share` is emitted exactly when the
key is present in the dict, with the dict's value unchanged. -/
def shareFields (i : Nat) (u : PyDict) : PyDict :=
  optEntry (userKey i "user_id") (u.lookup "user_id")
    ++ (optEntry (userKey i "paid_share") (u.lookup "paid_share")
    ++ optEntry (userKey i "owed_share") (u.lookup "owed_share"))

/-- The loop `for i, user in enumerate(users)` starting at index `i`. -/
def flattenUsersFrom (i : Nat) : List PyDict → PyDict
  | [] => []
  | u :: rest => shareFields i u ++ flattenUsersFrom (i + 1) rest

/-- The `if users:` block of `create_expense`. -/
def usersField (users : Option (List PyDict)) : PyDict :=
  match users with
  | none => []
  | some l => if l.isEmpty then [] else flattenUsersFrom 0 l

/-- A conditional integer payload field (`if x: payload[k] = x` with Python
truthiness of `Optional[int]`). -/
def optIntField (k : String) (v : Option Int) : PyDict :=
  match v with
  | some n => if n = 0 then [] else [(k, JValue.int n)]
  | none => []

/-- A conditional string payload field (`if x: payload[k] = x` with Python
truthiness of `Optional[str]`). -/
def optStrField (k : String) (v : Option String) : PyDict :=
  match v with
  | some s => if s = "" then [] else [(k, JValue.str s)]
  | none => []

/-- The payload dict built by `SplitwiseClient.create_expense`, in insertion
order: the four unconditional base fields, the four truthiness-guarded
optional fields, then the flattened participant shares. -/
def buildExpensePayload (cost description : String) (group_id : Option Int)
    (users : Option (List PyDict)) (currency_code : String)
    (date details : Option String) (payment : Bool)
    (category_id : Option Int) : PyDict :=
  ("cost", JValue.str cost)
    :: ("description", JValue.str description)
    :: ("currency_code", JValue.str currency_code)
    :: ("payment", JValue.bool payment)
    :: (optIntField "group_id" group_id
      ++ (optStrField "date" date
      ++ (optStrField "details" details
      ++ (optIntField "category_id" category_id
      ++ usersField users))))

theorem lookup_cons_ne {k key : String} {v : JValue} {rest : PyDict} (h : k ≠ key) :
    List.lookup k ((key, v) :: rest) = List.lookup k rest := by
  rw [List.lookup_cons]
  rw [beq_false_of_ne h]

theorem lookup_cons_eq {k : String} {v : JValue} {rest : PyDict} :
    List.lookup k ((k, v) :: rest) = some v := by
  rw [List.lookup_cons]
  simp

theorem lookup_append_left_none {k : String} {l1 l2 : PyDict}
    (h : List.lookup k l1 = none) : List.lookup k (l1 ++ l2) = List.lookup k l2 := by
  induction l1 with
  | nil => simp
  | cons p rest ih =>
    rw [List.cons_append, List.lookup_cons]
    rw [List.lookup_cons] at h
    cases hbeq : k == p.1 with
    | true => simp [hbeq] at h
    | false =>
      simp only [hbeq] at h ⊢
      exact ih h

theorem lookup_optEntry_ne {k key : String} {o : Option JValue} {rest : PyDict}
    (h : k ≠ key) : List.lookup k (optEntry key o ++ rest) = List.lookup k rest := by
  cases o with
  | none => simp [optEntry]
  | some v => simp [optEntry, lookup_cons_ne h]

theorem lookup_optEntry_self_some {key : String} {o : Option JValue} {v : JValue}
    {rest : PyDict} (h : o = some v) :
    List.lookup key (optEntry key o ++ rest) = some v := by
  subst h
  simp [optEntry, lookup_cons_eq]

theorem lookup_optEntry_self_none {key : String} {o : Option JValue}
    {rest : PyDict} (h : o = none) :
    List.lookup key (optEntry key o ++ rest) = List.lookup key rest := by
  subst h
  simp [optEntry]

theorem lookup_optIntField_ne {k key : String} {v : Option Int} {rest : PyDict}
    (h : k ≠ key) : List.lookup k (optIntField key v ++ rest) = List.lookup k rest := by
  cases v with
  | none => simp [optIntField]
  | some n =>
    by_cases h0 : n = 0
    · simp [optIntField, h0]
    · simp [optIntField, h0, lookup_cons_ne h]

theorem lookup_optStrField_ne {k key : String} {v : Option String} {rest : PyDict}
    (h : k ≠ key) : List.lookup k (optStrField key v ++ rest) = List.lookup k rest := by
  cases v with
  | none => simp [optStrField]
  | some s =>
    by_cases h0 : s = ""
    · simp [optStrField, h0]
    · simp [optStrField, h0, lookup_cons_ne h]

theorem userKey_data (i : Nat) (f : String) :
    (userKey i f).data =
      'u' :: 's' :: 'e' :: 'r' :: 's' :: '_' :: '_' ::
        (natToDec i ++ '_' :: '_' :: f.data) := by
  simp only [userKey, String.data_append, natToStr]
  simp only [List.append_assoc]
  rfl

theorem userKey_inj {a b : Nat} {f g : String} (h : userKey a f = userKey b g) :
    a = b ∧ f = g := by
  have hd := congrArg String.data h
  rw [userKey_data, userKey_data] at hd
  simp only [List.cons.injEq, true_and] at hd
  have hsep := underscore_separation (natToDec a) (natToDec b)
    ('_' :: f.data) ('_' :: g.data)
    (natToDec_no_underscore a) (natToDec_no_underscore b) hd
  refine ⟨natToDec_injective hsep.1, ?_⟩
  have hfg : f.data = g.data := by
    have := hsep.2
    simpa using this
  calc f = String.mk f.data := rfl
    _ = String.mk g.data := by rw [hfg]
    _ = g := rfl

theorem userKey_head (i : Nat) (f : String) :
    (userKey i f).data.head? = some 'u' := by
  rw [userKey_data]
  rfl

theorem lookup_shareFields_ne {k : String} {i : Nat} {u : PyDict} {rest : PyDict}
    (h1 : k ≠ userKey i "user_id") (h2 : k ≠ userKey i "paid_share")
    (h3 : k ≠ userKey i "owed_share") :
    List.lookup k (shareFields i u ++ rest) = List.lookup k rest := by
  simp only [shareFields, List.append_assoc]
  rw [lookup_optEntry_ne h1, lookup_optEntry_ne h2, lookup_optEntry_ne h3]

theorem lookup_flattenFrom_of_lt {t s : Nat} {f : String} (hts : t < s) :
    ∀ l : List PyDict, List.lookup (userKey t f) (flattenUsersFrom s l) = none := by
  intro l
  induction l generalizing s with
  | nil => rfl
  | cons u rest ih =>
    rw [flattenUsersFrom]
    rw [lookup_shareFields_ne]
    · exact ih (by omega)
    all_goals
      intro hk
      have := (userKey_inj hk).1
      omega

theorem lookup_flattenFrom_of_head_ne {k : String} (hk : k.data.head? ≠ some 'u') :
    ∀ (s : Nat) (l : List PyDict), List.lookup k (flattenUsersFrom s l) = none := by
  intro s l
  induction l generalizing s with
  | nil => rfl
  | cons u rest ih =>
    rw [flattenUsersFrom]
    rw [lookup_shareFields_ne]
    · exact ih (s + 1)
    all_goals
      intro hkey
      rw [hkey] at hk
      exact hk (userKey_head _ _)

theorem lookup_usersField_of_head_ne {k : String} (hk : k.data.head? ≠ some 'u')
    (users : Option (List PyDict)) : List.lookup k (usersField users) = none := by
  cases users with
  | none => rfl
  | some l =>
    rw [usersField]
    by_cases he : l.isEmpty
    · simp [he]
    · simp only [he, if_false]
      exact lookup_flattenFrom_of_head_ne hk 0 l

/-- The three flattened field names. -/
def shareFieldNames : List String := ["user_id", "paid_share", "owed_share"]

theorem lookup_flattenFrom_at {f : String} (hf : f ∈ shareFieldNames) :
    ∀ (l : List PyDict) (s i : Nat) (hi : i < l.length),
      List.lookup (userKey (s + i) f) (flattenUsersFrom s l) =
        List.lookup f (l.get ⟨i, hi⟩) := by
  intro l
  induction l with
  | nil =>
    intro s i hi
    simp at hi
  | cons u rest ih =>
    intro s i hi
    rw [flattenUsersFrom]
    cases i with
    | zero =>
      simp only [Nat.add_zero, List.get]
      have htail : List.lookup (userKey s f) (flattenUsersFrom (s + 1) rest) = none :=
        lookup_flattenFrom_of_lt (by omega) rest
      have hne : ∀ g1 g2 : String, g1 ≠ g2 → userKey s g1 ≠ userKey s g2 := by
        intro g1 g2 hg hk
        exact hg (userKey_inj hk).2
      fin_cases hf
      · simp only [shareFields, List.append_assoc]
        cases hu : List.lookup "user_id" u with
        | some v => exact lookup_optEntry_self_some rfl
        | none =>
          rw [lookup_optEntry_self_none rfl]
          rw [lookup_optEntry_ne (hne _ _ (by decide))]
          rw [lookup_optEntry_ne (hne _ _ (by decide))]
          exact htail
      · simp only [shareFields, List.append_assoc]
        rw [lookup_optEntry_ne (hne _ _ (by decide))]
        cases hu : List.lookup "paid_share" u with
        | some v => exact lookup_optEntry_self_some rfl
        | none =>
          rw [lookup_optEntry_self_none rfl]
          rw [lookup_optEntry_ne (hne _ _ (by decide))]
          exact htail
      · simp only [shareFields, List.append_assoc]
        rw [lookup_optEntry_ne (hne _ _ (by decide))]
        rw [lookup_optEntry_ne (hne _ _ (by decide))]
        cases hu : List.lookup "owed_share" u with
        | some v => exact lookup_optEntry_self_some rfl
        | none =>
          rw [lookup_optEntry_self_none rfl]
          exact htail
    | succ j =>
      have hskip : List.lookup (userKey (s + (j + 1)) f)
          (shareFields s u ++ flattenUsersFrom (s + 1) rest) =
          List.lookup (userKey (s + (j + 1)) f) (flattenUsersFrom (s + 1) rest) := by
        apply lookup_shareFields_ne
        all_goals
          intro hk
          have := (userKey_inj hk).1
          omega
      rw [hskip]
      have hj : j < rest.length := by simpa using hi
      have := ih (s + 1) j hj
      rw [show s + 1 + j = s + (j + 1) by omega] at this
      rw [this]
      rfl

/-- The `SplitwiseConfig` dataclass: four optional environment-sourced
settings; only `api_key` is consulted. -/
structure SplitwiseConfig where
  consumer_key : Option String := none
  consumer_secret : Option String := none
  access_token : Option String := none
  api_key : Option String := none

/-- The `SplitwiseUser` pydantic model. -/
structure SplitwiseUser where
  id : Int
  first_name : String
  last_name : Option String := none
  email : Option String := none
  registration_status : Option String := none
  picture : Option (List (String × String)) := none

/-- The `SplitwiseGroup` pydantic model. -/
structure SplitwiseGroup where
  id : Int
  name : String
  created_at : String
  updated_at : String
  members : List SplitwiseUser
  simplify_by_default : Bool
  original_debts : List PyDict
  simplified_debts : List PyDict

/-- The `SplitwiseExpense` pydantic model; note that `group_id` is a required
`int` field, with no `Optional` and no default. -/
structure SplitwiseExpense where
  id : Int
  group_id : Int
  description : String
  payment : Bool
  cost : String
  currency_code : String
  date : String
  created_at : String
  updated_at : String
  created_by : SplitwiseUser
  updated_by : SplitwiseUser
  category : PyDict
  details : Option String := none
  users : List PyDict
  expense_bundle_id : Option Int := none
  friendship_id : Option Int := none
  repayments : List PyDict

/-- The failure modes of a client or tool call. `authError` models the
`ValueError`s raised before any request when no API key is configured;
`httpStatus` models `response.raise_for_status()`; `apiFailed` the
`"API request failed"` branch; `keyError` a Python `KeyError` from a plain
`data[key]` subscript; `typeError` a Python `TypeError`; `malformedResponse`
the `"Unexpected API response structure"` error carrying the raw body; and
`schemaError` a pydantic validation failure naming the offending field. -/
inductive SwError where
  | authError (msg : String)
  | httpStatus (status : Nat)
  | apiFailed (errs : JValue)
  | keyError (key : String)
  | typeError
  | malformedResponse (body : JValue)
  | schemaError (field : String)

/-- An upstream HTTP response: status code and parsed JSON body. -/
structure HttpResponse where
  status : Nat
  body : JValue

/-- A record of one outbound HTTP request. -/
structure SwRequest where
  verb : String
  path : String
  payload : Option PyDict := none

/-- Python's `data[key]` on a parsed JSON value: a `KeyError` when the key is
absent from a dict, a `TypeError` when the value is not a dict. -/
def pyGetItem (j : JValue) (k : String) : Except SwError JValue :=
  match j with
  | JValue.obj fs =>
    match fs.lookup k with
    | some v => Except.ok v
    | none => Except.error (SwError.keyError k)
  | _ => Except.error SwError.typeError

/-- Python's `key in data` on a parsed JSON dict. -/
def pyContains (j : JValue) (k : String) : Bool :=
  match j with
  | JValue.obj fs => (fs.lookup k).isSome
  | _ => false

/-- Python's `data.get("errors", "Unknown error")`. -/
def pyGetErrors (j : JValue) : JValue :=
  match j with
  | JValue.obj fs =>
    match fs.lookup "errors" with
    | some v => v
    | none => JValue.str "Unknown error"
  | _ => JValue.str "Unknown error"

/-- A required `int` field of a pydantic model. -/
def reqInt (fs : PyDict) (k : String) : Except SwError Int :=
  match fs.lookup k with
  | some (JValue.int n) => Except.ok n
  | _ => Except.error (SwError.schemaError k)

/-- A required `str` field of a pydantic model. -/
def reqStr (fs : PyDict) (k : String) : Except SwError String :=
  match fs.lookup k with
  | some (JValue.str s) => Except.ok s
  | _ => Except.error (SwError.schemaError k)

/-- A required `bool` field of a pydantic model. -/
def reqBool (fs : PyDict) (k : String) : Except SwError Bool :=
  match fs.lookup k with
  | some (JValue.bool b) => Except.ok b
  | _ => Except.error (SwError.schemaError k)

/-- An `Optional[str] = None` field: absent or `null` yields `None`. -/
def optStr (fs : PyDict) (k : String) : Except SwError (Option String) :=
  match fs.lookup k with
  | none => Except.ok none
  | some JValue.null => Except.ok none
  | some (JValue.str s) => Except.ok (some s)
  | some _ => Except.error (SwError.schemaError k)

/-- An `Optional[int] = None` field: absent or `null` yields `None`. -/
def optInt (fs : PyDict) (k : String) : Except SwError (Option Int) :=
  match fs.lookup k with
  | none => Except.ok none
  | some JValue.null => Except.ok none
  | some (JValue.int n) => Except.ok (some n)
  | some _ => Except.error (SwError.schemaError k)

/-- An `Optional[Dict[str, str]] = None` field. -/
def optStrDict (fs : PyDict) (k : String) : Except SwError (Option (List (String × String))) :=
  match fs.lookup k with
  | none => Except.ok none
  | some JValue.null => Except.ok none
  | some (JValue.obj entries) =>
    (entries.mapM fun (p : String × JValue) =>
      match p.2 with
      | JValue.str s => Except.ok (p.1, s)
      | _ => Except.error (SwError.schemaError k)).map some
  | some _ => Except.error (SwError.schemaError k)

/-- A required `Dict[str, Any]` field. -/
def reqObj (fs : PyDict) (k : String) : Except SwError PyDict :=
  match fs.lookup k with
  | some (JValue.obj o) => Except.ok o
  | _ => Except.error (SwError.schemaError k)

/-- A required `List[Dict[str, Any]]` field. -/
def reqObjList (fs : PyDict) (k : String) : Except SwError (List PyDict) :=
  match fs.lookup k with
  | some (JValue.arr l) =>
    l.mapM fun v =>
      match v with
      | JValue.obj o => Except.ok o
      | _ => Except.error (SwError.schemaError k)
  | _ => Except.error (SwError.schemaError k)

/-- Validation of `SplitwiseUser(**data)`. -/
def parseUser (j : JValue) : Except SwError SplitwiseUser :=
  match j with
  | JValue.obj fs => do
    let uid ← reqInt fs "id"
    let fn ← reqStr fs "first_name"
    let ln ← optStr fs "last_name"
    let em ← optStr fs "email"
    let rs ← optStr fs "registration_status"
    let pic ← optStrDict fs "picture"
    pure ⟨uid, fn, ln, em, rs, pic⟩
  | _ => Except.error SwError.typeError

/-- A required `List[SplitwiseUser]` field. -/
def reqUserList (fs : PyDict) (k : String) : Except SwError (List SplitwiseUser) :=
  match fs.lookup k with
  | some (JValue.arr l) => l.mapM parseUser
  | _ => Except.error (SwError.schemaError k)

/-- A required nested `SplitwiseUser` field. -/
def reqUser (fs : PyDict) (k : String) : Except SwError SplitwiseUser :=
  match fs.lookup k with
  | some v => parseUser v
  | none => Except.error (SwError.schemaError k)

/-- Validation of `SplitwiseGroup(**data)`. -/
def parseGroup (j : JValue) : Except SwError SplitwiseGroup :=
  match j with
  | JValue.obj fs => do
    let gid ← reqInt fs "id"
    let name ← reqStr fs "name"
    let ca ← reqStr fs "created_at"
    let ua ← reqStr fs "updated_at"
    let mem ← reqUserList fs "members"
    let sbd ← reqBool fs "simplify_by_default"
    let od ← reqObjList fs "original_debts"
    let sd ← reqObjList fs "simplified_debts"
    pure ⟨gid, name, ca, ua, mem, sbd, od, sd⟩
  | _ => Except.error SwError.typeError

/-- Validation of `SplitwiseExpense(**data)`, field by field in declaration
order; `group_id` is required. -/
def parseExpense (j : JValue) : Except SwError SplitwiseExpense :=
  match j with
  | JValue.obj fs => do
    let eid ← reqInt fs "id"
    let gid ← reqInt fs "group_id"
    let desc ← reqStr fs "description"
    let pay ← reqBool fs "payment"
    let cost ← reqStr fs "cost"
    let cc ← reqStr fs "currency_code"
    let date ← reqStr fs "date"
    let ca ← reqStr fs "created_at"
    let ua ← reqStr fs "updated_at"
    let cb ← reqUser fs "created_by"
    let ub ← reqUser fs "updated_by"
    let cat ← reqObj fs "category"
    let det ← optStr fs "details"
    let us ← reqObjList fs "users"
    let ebi ← optInt fs "expense_bundle_id"
    let fid ← optInt fs "friendship_id"
    let rep ← reqObjList fs "repayments"
    pure ⟨eid, gid, desc, pay, cost, cc, date, ca, ua, cb, ub, cat, det, us, ebi, fid, rep⟩
  | _ => Except.error SwError.typeError

/-- The error message of the tool-level missing-key check. -/
def envKeyMsg : String := "SPLITWISE_API_KEY environment variable is required"

/-- The error message of `SplitwiseClient._get_headers` when no key is set. -/
def oauthMsg : String := "API key is required. OAuth flow not implemented yet."

/-- `SplitwiseClient._get_headers`: bearer headers when a truthy API key is
configured, an authentication `ValueError` otherwise. -/
def getHeaders (cfg : SplitwiseConfig) : Except SwError (List (String × String)) :=
  match cfg.api_key with
  | some k =>
    if k = "" then Except.error (SwError.authError oauthMsg)
    else Except.ok [("Authorization", "Bearer " ++ k), ("Content-Type", "application/json")]
  | none => Except.error (SwError.authError oauthMsg)

/-- Whether `response.raise_for_status()` passes (a 2xx status). -/
def httpSuccess (status : Nat) : Bool :=
  200 ≤ status && status < 300

/-- The shared protocol of the three GET client operations: compute headers
(before any request), issue the request, raise for a non-2xx status, raise
`"API request failed"` for a non-200 status, then subscript the expected
top-level key out of the JSON body. -/
def clientGet (cfg : SplitwiseConfig) (path : String) (key : String)
    (resp : HttpResponse) : Except SwError JValue × List SwRequest :=
  match getHeaders cfg with
  | Except.error e => (Except.error e, [])
  | Except.ok _ =>
    let req : SwRequest := { verb := "GET", path := path }
    if httpSuccess resp.status then
      if resp.status = 200 then
        (pyGetItem resp.body key, [req])
      else
        (Except.error (SwError.apiFailed (pyGetErrors resp.body)), [req])
    else
      (Except.error (SwError.httpStatus resp.status), [req])

/-- `SplitwiseClient.get_current_user`. -/
def clientGetCurrentUser (cfg : SplitwiseConfig) (resp : HttpResponse) :
    Except SwError SplitwiseUser × List SwRequest :=
  match clientGet cfg "/get_current_user" "user" resp with
  | (Except.error e, reqs) => (Except.error e, reqs)
  | (Except.ok v, reqs) => (parseUser v, reqs)

/-- Parsing of the `groups` array (`[SplitwiseGroup(**g) for g in data["groups"]]`). -/
def parseGroupList (v : JValue) : Except SwError (List SplitwiseGroup) :=
  match v with
  | JValue.arr l => l.mapM parseGroup
  | _ => Except.error SwError.typeError

/-- Parsing of the `friends` array (`[SplitwiseUser(**f) for f in data["friends"]]`). -/
def parseUserList (v : JValue) : Except SwError (List SplitwiseUser) :=
  match v with
  | JValue.arr l => l.mapM parseUser
  | _ => Except.error SwError.typeError

/-- `SplitwiseClient.get_groups`. -/
def clientGetGroups (cfg : SplitwiseConfig) (resp : HttpResponse) :
    Except SwError (List SplitwiseGroup) × List SwRequest :=
  match clientGet cfg "/get_groups" "groups" resp with
  | (Except.error e, reqs) => (Except.error e, reqs)
  | (Except.ok v, reqs) => (parseGroupList v, reqs)

/-- `SplitwiseClient.get_friends`. -/
def clientGetFriends (cfg : SplitwiseConfig) (resp : HttpResponse) :
    Except SwError (List SplitwiseUser) × List SwRequest :=
  match clientGet cfg "/get_friends" "friends" resp with
  | (Except.error e, reqs) => (Except.error e, reqs)
  | (Except.ok v, reqs) => (parseUserList v, reqs)

/-- The caller-supplied arguments of `create_expense` / `add_expense`, with
the source defaults. -/
structure CreateExpenseArgs where
  cost : String
  description : String
  group_id : Option Int := none
  users : Option (List PyDict) := none
  currency_code : String := "USD"
  date : Option String := none
  details : Option String := none
  payment : Bool := false
  category_id : Option Int := none

/-- `SplitwiseClient.create_expense`: build the flattened payload, compute
headers, POST, raise for non-2xx and non-200, then check the `expense` key
(raising the malformed-response error carrying the raw body when absent) and
validate the expense object. -/
def clientCreateExpense (cfg : SplitwiseConfig) (a : CreateExpenseArgs)
    (resp : HttpResponse) : Except SwError SplitwiseExpense × List SwRequest :=
  let payload := buildExpensePayload a.cost a.description a.group_id a.users
    a.currency_code a.date a.details a.payment a.category_id
  match getHeaders cfg with
  | Except.error e => (Except.error e, [])
  | Except.ok _ =>
    let req : SwRequest := { verb := "POST", path := "/create_expense", payload := some payload }
    if httpSuccess resp.status then
      if resp.status = 200 then
        if pyContains resp.body "expense" then
          match pyGetItem resp.body "expense" with
          | Except.error e => (Except.error e, [req])
          | Except.ok v => (parseExpense v, [req])
        else
          (Except.error (SwError.malformedResponse resp.body), [req])
      else
        (Except.error (SwError.apiFailed (pyGetErrors resp.body)), [req])
    else
      (Except.error (SwError.httpStatus resp.status), [req])

/-- The plain mapping returned by the `add_expense` tool on success. -/
def projectExpenseResult (e : SplitwiseExpense) : PyDict :=
  [("id", JValue.int e.id),
   ("description", JValue.str e.description),
   ("cost", JValue.str e.cost),
   ("currency_code", JValue.str e.currency_code),
   ("date", JValue.str e.date),
   ("group_id", JValue.int e.group_id),
   ("created_at", JValue.str e.created_at),
   ("success", JValue.bool true)]

/-- An optional string rendered into a result dict (`None` becomes `null`). -/
def optStrVal : Option String → JValue
  | none => JValue.null
  | some s => JValue.str s

/-- The per-friend mapping built by the `get_users` tool. -/
def projectFriend (u : SplitwiseUser) : PyDict :=
  [("id", JValue.int u.id),
   ("first_name", JValue.str u.first_name),
   ("last_name", optStrVal u.last_name),
   ("full_name", JValue.str (fullName u.first_name u.last_name)),
   ("email", optStrVal u.email),
   ("registration_status", optStrVal u.registration_status)]

/-- The per-member mapping built inside the `get_groups` tool. -/
def projectMember (u : SplitwiseUser) : PyDict :=
  [("id", JValue.int u.id),
   ("first_name", JValue.str u.first_name),
   ("last_name", optStrVal u.last_name),
   ("full_name", JValue.str (fullName u.first_name u.last_name)),
   ("email", optStrVal u.email)]

/-- The per-group mapping built by the `get_groups` tool: identity, name,
timestamps, member count, projected members and the default-simplification
flag; the debt lists of the model are not projected. -/
def projectGroup (g : SplitwiseGroup) : PyDict :=
  [("id", JValue.int g.id),
   ("name", JValue.str g.name),
   ("created_at", JValue.str g.created_at),
   ("updated_at", JValue.str g.updated_at),
   ("member_count", JValue.int g.members.length),
   ("members", JValue.arr (g.members.map (fun m => JValue.obj (projectMember m)))),
   ("simplify_by_default", JValue.bool g.simplify_by_default)]

/-- An optional picture dict rendered into a result dict. -/
def optPicVal : Option (List (String × String)) → JValue
  | none => JValue.null
  | some fs => JValue.obj (fs.map (fun p => (p.1, JValue.str p.2)))

/-- The mapping returned by the `get_current_user` tool. -/
def projectCurrentUser (u : SplitwiseUser) : PyDict :=
  [("id", JValue.int u.id),
   ("first_name", JValue.str u.first_name),
   ("last_name", optStrVal u.last_name),
   ("full_name", JValue.str (fullName u.first_name u.last_name)),
   ("email", optStrVal u.email),
   ("registration_status", optStrVal u.registration_status),
   ("picture", optPicVal u.picture)]

/-- The `add_expense` tool: fail fast when the configured API key is falsy
(missing or empty), issuing no request; otherwise delegate to the client and
project the created expense. -/
def addExpenseTool (cfg : SplitwiseConfig) (a : CreateExpenseArgs)
    (resp : HttpResponse) : Except SwError PyDict × List SwRequest :=
  if pyTruthyOptStr cfg.api_key then
    match clientCreateExpense cfg a resp with
    | (Except.error e, reqs) => (Except.error e, reqs)
    | (Except.ok e, reqs) => (Except.ok (projectExpenseResult e), reqs)
  else
    (Except.error (SwError.authError envKeyMsg), [])

/-- The `get_users` tool. -/
def getUsersTool (cfg : SplitwiseConfig) (resp : HttpResponse) :
    Except SwError (List PyDict) × List SwRequest :=
  if pyTruthyOptStr cfg.api_key then
    match clientGetFriends cfg resp with
    | (Except.error e, reqs) => (Except.error e, reqs)
    | (Except.ok friends, reqs) => (Except.ok (friends.map projectFriend), reqs)
  else
    (Except.error (SwError.authError envKeyMsg), [])

/-- The `get_groups` tool. -/
def getGroupsTool (cfg : SplitwiseConfig) (resp : HttpResponse) :
    Except SwError (List PyDict) × List SwRequest :=
  if pyTruthyOptStr cfg.api_key then
    match clientGetGroups cfg resp with
    | (Except.error e, reqs) => (Except.error e, reqs)
    | (Except.ok groups, reqs) => (Except.ok (groups.map projectGroup), reqs)
  else
    (Except.error (SwError.authError envKeyMsg), [])

/-- The `get_current_user` tool. -/
def getCurrentUserTool (cfg : SplitwiseConfig) (resp : HttpResponse) :
    Except SwError PyDict × List SwRequest :=
  if pyTruthyOptStr cfg.api_key then
    match clientGetCurrentUser cfg resp with
    | (Except.error e, reqs) => (Except.error e, reqs)
    | (Except.ok u, reqs) => (Except.ok (projectCurrentUser u), reqs)
  else
    (Except.error (SwError.authError envKeyMsg), [])

theorem userKey_ne_lit {i : Nat} {f k : String} (h : k.data.head? ≠ some 'u') :
    userKey i f ≠ k := by
  intro he
  apply h
  rw [← he, userKey_head]

theorem except_bind_ok {α β : Type} {x : Except SwError α} {f : α → Except SwError β}
    {b : β} : (x >>= f) = Except.ok b ↔ ∃ a, x = Except.ok a ∧ f a = Except.ok b := by
  cases x with
  | error e =>
    constructor
    · intro h
      exact absurd h (by intro hc; exact Except.noConfusion hc)
    · rintro ⟨a, ha, _⟩
      exact Except.noConfusion ha
  | ok a =>
    constructor
    · intro h
      exact ⟨a, rfl, h⟩
    · rintro ⟨a2, ha, hf⟩
      cases ha
      exact hf

theorem except_pure_ok {α : Type} {a b : α} :
    (pure a : Except SwError α) = Except.ok b ↔ a = b := by
  constructor
  · intro h
    cases h
    rfl
  · intro h
    rw [h]
    rfl

theorem reqInt_ok {fs : PyDict} {k : String} {n : Int}
    (h : reqInt fs k = Except.ok n) : List.lookup k fs = some (JValue.int n) := by
  unfold reqInt at h
  split at h
  · cases h
    assumption
  · exact Except.noConfusion h

theorem reqStr_ok {fs : PyDict} {k : String} {s : String}
    (h : reqStr fs k = Except.ok s) : List.lookup k fs = some (JValue.str s) := by
  unfold reqStr at h
  split at h
  · cases h
    assumption
  · exact Except.noConfusion h

/-- Success of `SplitwiseExpense(**data)` pins down the raw `group_id` and
`cost` fields of the response object: an integer group id must be present,
and the cost is carried over as the literal response string. -/
theorem parseExpense_ok_fields {fs : PyDict} {e : SplitwiseExpense}
    (h : parseExpense (JValue.obj fs) = Except.ok e) :
    List.lookup "group_id" fs = some (JValue.int e.group_id) ∧
    List.lookup "cost" fs = some (JValue.str e.cost) := by
  rw [parseExpense] at h
  simp only [except_bind_ok, except_pure_ok] at h
  obtain ⟨eid, h1, gid, h2, desc, h3, pay, h4, cost, h5, cc, h6, dt, h7, ca, h8,
    ua, h9, cb, h10, ub, h11, cat, h12, det, h13, us, h14, ebi, h15, fid, h16,
    rep, h17, hfin⟩ := h
  subst hfin
  exact ⟨reqInt_ok h2, reqStr_ok h5⟩

theorem dropWhile_cons_false {p : Char → Bool} {c : Char} {t : List Char}
    (h : p c = false) : (c :: t).dropWhile p = c :: t := by
  simp [List.dropWhile_cons, h]

theorem dropWhile_eq_self_head_false {p : Char → Bool} {c : Char} {t : List Char}
    (h : (c :: t).dropWhile p = c :: t) : p c = false := by
  by_cases hp : p c = true
  · exfalso
    rw [List.dropWhile_cons, if_pos hp] at h
    have hle : (t.dropWhile p).length ≤ t.length := (List.dropWhile_sublist p).length_le
    have := congrArg List.length h
    simp at this
    omega
  · simpa using hp

theorem stripChars_eq_self_parts {l : List Char} (h : stripChars l = l) :
    l.dropWhile pyIsSpace = l ∧
    l.reverse.dropWhile pyIsSpace = l.reverse := by
  have h1le : (l.dropWhile pyIsSpace).length ≤ l.length :=
    (List.dropWhile_sublist pyIsSpace).length_le
  have h2le : (stripChars l).length ≤ (l.dropWhile pyIsSpace).length := by
    unfold stripChars
    have := (List.dropWhile_sublist (l := (l.dropWhile pyIsSpace).reverse)
      pyIsSpace).length_le
    simpa using this
  have hlen := congrArg List.length h
  have hfront : l.dropWhile pyIsSpace = l := by
    apply (List.dropWhile_sublist pyIsSpace).eq_of_length
    omega
  refine ⟨hfront, ?_⟩
  unfold stripChars at h
  rw [hfront] at h
  have := congrArg List.reverse h
  simpa using this

theorem pyIsSpace_space : pyIsSpace ' ' = true := by decide

theorem stripChars_append_space {l : List Char} (h : stripChars l = l) :
    stripChars (l ++ [' ']) = l := by
  obtain ⟨hfront, hback⟩ := stripChars_eq_self_parts h
  cases l with
  | nil => rfl
  | cons c t =>
    have hc : pyIsSpace c = false := dropWhile_eq_self_head_false hfront
    unfold stripChars
    rw [show ((c :: t) ++ [' ']) = c :: (t ++ [' ']) from rfl]
    rw [dropWhile_cons_false hc]
    rw [show (c :: (t ++ [' '])).reverse = ' ' :: ((c :: t).reverse) by simp]
    rw [show List.dropWhile pyIsSpace (' ' :: (c :: t).reverse) =
      List.dropWhile pyIsSpace ((c :: t).reverse) by
        rw [List.dropWhile_cons]
        simp [pyIsSpace_space]]
    rw [hback]
    simp

theorem stripChars_sep {f s : List Char} (hf : stripChars f = f) (hfne : f ≠ [])
    (hs : stripChars s = s) (hsne : s ≠ []) :
    stripChars (f ++ ' ' :: s) = f ++ ' ' :: s := by
  obtain ⟨hffront, hfback⟩ := stripChars_eq_self_parts hf
  obtain ⟨hsfront, hsback⟩ := stripChars_eq_self_parts hs
  cases f with
  | nil => exact absurd rfl hfne
  | cons c t =>
    have hc : pyIsSpace c = false := dropWhile_eq_self_head_false hffront
    cases hrs : s.reverse with
    | nil =>
      exfalso
      have := congrArg List.reverse hrs
      simp at this
      exact hsne this
    | cons d r =>
      have hd : pyIsSpace d = false := by
        rw [hrs] at hsback
        exact dropWhile_eq_self_head_false hsback
      unfold stripChars
      rw [show ((c :: t) ++ ' ' :: s) = c :: (t ++ ' ' :: s) from rfl]
      rw [dropWhile_cons_false hc]
      rw [show (c :: (t ++ ' ' :: s)).reverse = s.reverse ++ (' ' :: (c :: t).reverse) by simp]
      rw [hrs]
      rw [show ((d :: r) ++ (' ' :: (c :: t).reverse)) = d :: (r ++ ' ' :: (c :: t).reverse)
        from rfl]
      rw [dropWhile_cons_false hd]
      rw [show (d :: (r ++ ' ' :: (c :: t).reverse)).reverse =
        ((' ' :: (c :: t).reverse).reverse ++ (d :: r).reverse) by simp]
      rw [← hrs]
      simp

theorem pyStrip_data {s : String} (h : pyStrip s = s) : stripChars s.data = s.data :=
  congrArg String.data h

theorem string_eq_of_data {s t : String} (h : s.data = t.data) : s = t := by
  calc s = String.mk s.data := rfl
    _ = String.mk t.data := by rw [h]
    _ = t := rfl

theorem data_ne_nil_of_ne_empty {s : String} (h : s ≠ "") : s.data ≠ [] := by
  intro hd
  exact h (string_eq_of_data hd)

/-- With a missing or empty last name, the derived full name is the stripped
first name. -/
theorem fullName_no_last {f : String} (hf : pyStrip f = f) :
    fullName f none = f ∧ fullName f (some "") = f := by
  have hdata : ∀ o : Option String, pyOrEmpty o = "" →
      fullName f o = f := by
    intro o ho
    unfold fullName
    rw [ho]
    apply string_eq_of_data
    show stripChars (f ++ " " ++ "").data = f.data
    rw [show (f ++ " " ++ "").data = f.data ++ [' '] by
      simp [String.data_append]]
    exact stripChars_append_space (pyStrip_data hf)
  exact ⟨hdata none rfl, hdata (some "") rfl⟩

/-- With a clean non-empty first name and a clean non-empty last name, the
derived full name is first, a single space, then last. -/
theorem fullName_with_last {f s : String} (hf : pyStrip f = f) (hfne : f ≠ "")
    (hs : pyStrip s = s) (hsne : s ≠ "") :
    fullName f (some s) = f ++ " " ++ s := by
  unfold fullName
  rw [show pyOrEmpty (some s) = s by simp [pyOrEmpty, hsne]]
  apply string_eq_of_data
  show stripChars (f ++ " " ++ s).data = (f ++ " " ++ s).data
  rw [show (f ++ " " ++ s).data = f.data ++ ' ' :: s.data by
    simp [String.data_append]]
  exact stripChars_sep (pyStrip_data hf) (data_ne_nil_of_ne_empty hfne)
    (pyStrip_data hs) (data_ne_nil_of_ne_empty hsne)

/-- A configuration holding a valid API key. -/
def cfgEx : SplitwiseConfig := { api_key := some "token123" }

/-- A configuration with no API key set. -/
def cfgNone : SplitwiseConfig := {}

/-- A configuration whose API key is the empty string. -/
def cfgEmpty : SplitwiseConfig := { api_key := some "" }

/-- Example `add_expense` arguments. -/
def argsEx : CreateExpenseArgs := { cost := "25.50", description := "dinner" }

/-- The participant-share list of the specification's flattening example. -/
def usersEx : List PyDict :=
  [[("user_id", JValue.int 1), ("paid_share", JValue.str "5.00")],
   [("user_id", JValue.int 2), ("owed_share", JValue.str "5.00")]]

/-- C1: each entry of the participant-share list passed to create expense, at
zero-based position `i`, is flattened into `users__<i>__user_id`,
`users__<i>__paid_share` and `users__<i>__owed_share`: the payload holds each
of the three field names exactly when the entry holds the corresponding key,
and carries the entry's value unchanged. -/
theorem c1_participant_flattening (cost desc cc : String) (gid cid : Option Int)
    (date det : Option String) (pay : Bool) (l : List PyDict) (i : Nat)
    (hi : i < l.length) (f : String) (hf : f ∈ shareFieldNames) :
    List.lookup (userKey i f)
      (buildExpensePayload cost desc gid (some l) cc date det pay cid) =
    List.lookup f (l.get ⟨i, hi⟩) := by
  unfold buildExpensePayload
  rw [lookup_cons_ne (userKey_ne_lit (by decide))]
  rw [lookup_cons_ne (userKey_ne_lit (by decide))]
  rw [lookup_cons_ne (userKey_ne_lit (by decide))]
  rw [lookup_cons_ne (userKey_ne_lit (by decide))]
  rw [lookup_optIntField_ne (userKey_ne_lit (by decide))]
  rw [lookup_optStrField_ne (userKey_ne_lit (by decide))]
  rw [lookup_optStrField_ne (userKey_ne_lit (by decide))]
  rw [lookup_optIntField_ne (userKey_ne_lit (by decide))]
  simp only [usersField]
  have hne : l.isEmpty = false := by
    cases l with
    | nil => simp at hi
    | cons u rest => rfl
  rw [if_neg (by simp [hne])]
  have := lookup_flattenFrom_at hf l 0 i hi
  rwa [Nat.zero_add] at this

/-- C1 witness: the flattening theorem applied to the specification's example
list at index 0 and field `paid_share`. -/
theorem c1_participant_flattening_witness :
    List.lookup (userKey 0 "paid_share")
      (buildExpensePayload "10.00" "dinner" none (some usersEx) "USD" none none false none) =
    List.lookup "paid_share" (usersEx.get ⟨0, by decide⟩) :=
  c1_participant_flattening "10.00" "dinner" "USD" none none none none false
    usersEx 0 (by decide) "paid_share" (by decide)

/-- C2 counterexample: a caller-supplied `group_id` of `0` is a non-null
value, yet the key `group_id` is omitted from the payload, because the code
gates the field on Python truthiness rather than on non-nullness. -/
theorem c2_counterexample_group_id_zero :
    List.lookup "group_id"
      (buildExpensePayload "10.00" "taxi" (some 0) none "USD" none none false none) = none
    ∧ some (0 : Int) ≠ (none : Option Int) :=
  ⟨rfl, by decide⟩

theorem optIntField_some_ne {k : String} {n : Int} (h : n ≠ 0) :
    optIntField k (some n) = [(k, JValue.int n)] := by
  simp [optIntField, h]

theorem optStrField_some_ne {k s : String} (h : s ≠ "") :
    optStrField k (some s) = [(k, JValue.str s)] := by
  simp [optStrField, h]

/-- C2 (amended): the payload carries `group_id`, `date`, `details` and
`category_id` exactly when the supplied value is truthy — non-null and
non-empty for the string arguments, non-null and non-zero for the integer
arguments — and an omitted key is never present as null. -/
theorem c2_optional_fields_truthiness (cost desc cc : String) (gid cid : Option Int)
    (users : Option (List PyDict)) (date det : Option String) (pay : Bool) :
    (List.lookup "group_id" (buildExpensePayload cost desc gid users cc date det pay cid) =
      match gid with
      | some n => if n = 0 then none else some (JValue.int n)
      | none => none) ∧
    (List.lookup "date" (buildExpensePayload cost desc gid users cc date det pay cid) =
      match date with
      | some s => if s = "" then none else some (JValue.str s)
      | none => none) ∧
    (List.lookup "details" (buildExpensePayload cost desc gid users cc date det pay cid) =
      match det with
      | some s => if s = "" then none else some (JValue.str s)
      | none => none) ∧
    (List.lookup "category_id" (buildExpensePayload cost desc gid users cc date det pay cid) =
      match cid with
      | some n => if n = 0 then none else some (JValue.int n)
      | none => none) := by
  refine ⟨?_, ?_, ?_, ?_⟩
  · unfold buildExpensePayload
    rw [lookup_cons_ne (by decide), lookup_cons_ne (by decide),
      lookup_cons_ne (by decide), lookup_cons_ne (by decide)]
    cases gid with
    | none =>
      rw [show optIntField "group_id" none = [] from rfl, List.nil_append]
      rw [lookup_optStrField_ne (by decide), lookup_optStrField_ne (by decide),
        lookup_optIntField_ne (by decide)]
      exact lookup_usersField_of_head_ne (by decide) users
    | some n =>
      by_cases h0 : n = 0
      · subst h0
        rw [show optIntField "group_id" (some 0) = [] from rfl, List.nil_append]
        rw [lookup_optStrField_ne (by decide), lookup_optStrField_ne (by decide),
          lookup_optIntField_ne (by decide)]
        rw [lookup_usersField_of_head_ne (by decide) users]
        rfl
      · rw [optIntField_some_ne h0, List.singleton_append, lookup_cons_eq]
        simp [h0]
  · unfold buildExpensePayload
    rw [lookup_cons_ne (by decide), lookup_cons_ne (by decide),
      lookup_cons_ne (by decide), lookup_cons_ne (by decide)]
    rw [lookup_optIntField_ne (by decide)]
    cases date with
    | none =>
      rw [show optStrField "date" none = [] from rfl, List.nil_append]
      rw [lookup_optStrField_ne (by decide), lookup_optIntField_ne (by decide)]
      exact lookup_usersField_of_head_ne (by decide) users
    | some s =>
      by_cases h0 : s = ""
      · subst h0
        rw [show optStrField "date" (some "") = [] from rfl, List.nil_append]
        rw [lookup_optStrField_ne (by decide), lookup_optIntField_ne (by decide)]
        rw [lookup_usersField_of_head_ne (by decide) users]
        rfl
      · rw [optStrField_some_ne h0, List.singleton_append, lookup_cons_eq]
        simp [h0]
  · unfold buildExpensePayload
    rw [lookup_cons_ne (by decide), lookup_cons_ne (by decide),
      lookup_cons_ne (by decide), lookup_cons_ne (by decide)]
    rw [lookup_optIntField_ne (by decide), lookup_optStrField_ne (by decide)]
    cases det with
    | none =>
      rw [show optStrField "details" none = [] from rfl, List.nil_append]
      rw [lookup_optIntField_ne (by decide)]
      exact lookup_usersField_of_head_ne (by decide) users
    | some s =>
      by_cases h0 : s = ""
      · subst h0
        rw [show optStrField "details" (some "") = [] from rfl, List.nil_append]
        rw [lookup_optIntField_ne (by decide)]
        rw [lookup_usersField_of_head_ne (by decide) users]
        rfl
      · rw [optStrField_some_ne h0, List.singleton_append, lookup_cons_eq]
        simp [h0]
  · unfold buildExpensePayload
    rw [lookup_cons_ne (by decide), lookup_cons_ne (by decide),
      lookup_cons_ne (by decide), lookup_cons_ne (by decide)]
    rw [lookup_optIntField_ne (by decide), lookup_optStrField_ne (by decide),
      lookup_optStrField_ne (by decide)]
    cases cid with
    | none =>
      rw [show optIntField "category_id" none = [] from rfl, List.nil_append]
      exact lookup_usersField_of_head_ne (by decide) users
    | some n =>
      by_cases h0 : n = 0
      · subst h0
        rw [show optIntField "category_id" (some 0) = [] from rfl, List.nil_append]
        rw [lookup_usersField_of_head_ne (by decide) users]
        rfl
      · rw [optIntField_some_ne h0, List.singleton_append, lookup_cons_eq]
        simp [h0]

/-- An example user object as returned by the upstream API. -/
def userJsonEx : JValue :=
  JValue.obj [("id", JValue.int 7), ("first_name", JValue.str "Ada")]

/-- The validated form of `userJsonEx`. -/
def userEx : SplitwiseUser := { id := 7, first_name := "Ada" }

/-- A complete, valid upstream expense object. -/
def expenseFieldsEx : PyDict :=
  [("id", JValue.int 42),
   ("group_id", JValue.int 3),
   ("description", JValue.str "dinner"),
   ("payment", JValue.bool false),
   ("cost", JValue.str "25.50"),
   ("currency_code", JValue.str "USD"),
   ("date", JValue.str "2024-05-01"),
   ("created_at", JValue.str "2024-05-01T10:00:00Z"),
   ("updated_at", JValue.str "2024-05-01T10:00:00Z"),
   ("created_by", userJsonEx),
   ("updated_by", userJsonEx),
   ("category", JValue.obj [("id", JValue.int 18)]),
   ("users", JValue.arr []),
   ("repayments", JValue.arr [])]

/-- The validated form of `expenseFieldsEx`. -/
def expenseEx : SplitwiseExpense :=
  { id := 42, group_id := 3, description := "dinner", payment := false,
    cost := "25.50", currency_code := "USD", date := "2024-05-01",
    created_at := "2024-05-01T10:00:00Z", updated_at := "2024-05-01T10:00:00Z",
    created_by := userEx, updated_by := userEx,
    category := [("id", JValue.int 18)], users := [], repayments := [] }

/-- The same upstream expense object with the `group_id` field removed: a
groupless expense. -/
def expenseFieldsNoGroup : PyDict :=
  [("id", JValue.int 42),
   ("description", JValue.str "dinner"),
   ("payment", JValue.bool false),
   ("cost", JValue.str "25.50"),
   ("currency_code", JValue.str "USD"),
   ("date", JValue.str "2024-05-01"),
   ("created_at", JValue.str "2024-05-01T10:00:00Z"),
   ("updated_at", JValue.str "2024-05-01T10:00:00Z"),
   ("created_by", userJsonEx),
   ("updated_by", userJsonEx),
   ("category", JValue.obj [("id", JValue.int 18)]),
   ("users", JValue.arr []),
   ("repayments", JValue.arr [])]

/-- C6 counterexample: an upstream expense response without a group id is
rejected with a schema-validation failure naming `group_id`, not accepted as
a valid groupless `SplitwiseExpense`. -/
theorem c6_counterexample_groupless_rejected :
    parseExpense (JValue.obj expenseFieldsNoGroup) =
      Except.error (SwError.schemaError "group_id") := rfl

/-- C6 (amended): the `SplitwiseExpense` model requires the parent group id —
every successfully validated expense response carries a non-null `group_id`
field, so a groupless expense response never yields an Expense value. -/
theorem c6_group_id_required (fs : PyDict) (e : SplitwiseExpense)
    (h : parseExpense (JValue.obj fs) = Except.ok e) :
    ∃ v, List.lookup "group_id" fs = some v ∧ v ≠ JValue.null := by
  refine ⟨JValue.int e.group_id, (parseExpense_ok_fields h).1, ?_⟩
  intro hc
  exact JValue.noConfusion hc

/-- C6 witness: the amended theorem applied to the complete example expense. -/
theorem c6_group_id_required_witness :
    ∃ v, List.lookup "group_id" expenseFieldsEx = some v ∧ v ≠ JValue.null :=
  c6_group_id_required expenseFieldsEx expenseEx rfl

/-- C8: the payload always carries the four base fields `cost`,
`description`, `currency_code` and `payment`, with the caller's cost string
unchanged; and on the response side a validated expense's `cost` is the
literal string of the response body — money stays a string end to end. -/
theorem c8_base_fields_cost_string :
    (∀ (cost desc cc : String) (gid cid : Option Int) (users : Option (List PyDict))
        (date det : Option String) (pay : Bool),
      List.lookup "cost" (buildExpensePayload cost desc gid users cc date det pay cid) =
        some (JValue.str cost) ∧
      List.lookup "description" (buildExpensePayload cost desc gid users cc date det pay cid) =
        some (JValue.str desc) ∧
      List.lookup "currency_code" (buildExpensePayload cost desc gid users cc date det pay cid) =
        some (JValue.str cc) ∧
      List.lookup "payment" (buildExpensePayload cost desc gid users cc date det pay cid) =
        some (JValue.bool pay)) ∧
    (∀ (fs : PyDict) (e : SplitwiseExpense), parseExpense (JValue.obj fs) = Except.ok e →
      List.lookup "cost" fs = some (JValue.str e.cost)) := by
  constructor
  · intro cost desc cc gid cid users date det pay
    refine ⟨?_, ?_, ?_, ?_⟩
    · rw [buildExpensePayload, lookup_cons_eq]
    · rw [buildExpensePayload, lookup_cons_ne (by decide), lookup_cons_eq]
    · rw [buildExpensePayload, lookup_cons_ne (by decide), lookup_cons_ne (by decide),
        lookup_cons_eq]
    · rw [buildExpensePayload, lookup_cons_ne (by decide), lookup_cons_ne (by decide),
        lookup_cons_ne (by decide), lookup_cons_eq]
  · intro fs e h
    exact (parseExpense_ok_fields h).2

/-- C8 witness: the response-side conjunct applied to the example expense. -/
theorem c8_base_fields_cost_string_witness :
    List.lookup "cost" expenseFieldsEx = some (JValue.str expenseEx.cost) :=
  c8_base_fields_cost_string.2 expenseFieldsEx expenseEx rfl

/-- A successful create-expense response. -/
def respExpenseOk : HttpResponse :=
  ⟨200, JValue.obj [("expense", JValue.obj expenseFieldsEx)]⟩

/-- A 200 response whose body is an empty JSON object. -/
def respEmptyObj : HttpResponse := ⟨200, JValue.obj []⟩

/-- C4: with no API key in the configuration, each of the four tools fails
with the authentication error raised by the tool-level check, and the list of
issued requests is empty — the failure happens before any network call. -/
theorem c4_missing_key_fails_before_network (cfg : SplitwiseConfig)
    (h : cfg.api_key = none) (a : CreateExpenseArgs) (resp : HttpResponse) :
    addExpenseTool cfg a resp = (Except.error (SwError.authError envKeyMsg), []) ∧
    getUsersTool cfg resp = (Except.error (SwError.authError envKeyMsg), []) ∧
    getGroupsTool cfg resp = (Except.error (SwError.authError envKeyMsg), []) ∧
    getCurrentUserTool cfg resp = (Except.error (SwError.authError envKeyMsg), []) := by
  have ht : pyTruthyOptStr cfg.api_key = false := by rw [h]; rfl
  refine ⟨?_, ?_, ?_, ?_⟩ <;>
    simp [addExpenseTool, getUsersTool, getGroupsTool, getCurrentUserTool, ht]

/-- C4 witness: the gate applied to the empty configuration. -/
theorem c4_missing_key_fails_before_network_witness :
    addExpenseTool cfgNone argsEx respEmptyObj =
      (Except.error (SwError.authError envKeyMsg), []) ∧
    getUsersTool cfgNone respEmptyObj =
      (Except.error (SwError.authError envKeyMsg), []) ∧
    getGroupsTool cfgNone respEmptyObj =
      (Except.error (SwError.authError envKeyMsg), []) ∧
    getCurrentUserTool cfgNone respEmptyObj =
      (Except.error (SwError.authError envKeyMsg), []) :=
  c4_missing_key_fails_before_network cfgNone rfl argsEx respEmptyObj

/-- C9: an API key configured as the empty string is falsy and is treated
exactly like an absent key: every tool fails with the same caller-facing
missing-key error before any request is issued. -/
theorem c9_empty_key_fails_before_network (cfg : SplitwiseConfig)
    (h : cfg.api_key = some "") (a : CreateExpenseArgs) (resp : HttpResponse) :
    addExpenseTool cfg a resp = (Except.error (SwError.authError envKeyMsg), []) ∧
    getUsersTool cfg resp = (Except.error (SwError.authError envKeyMsg), []) ∧
    getGroupsTool cfg resp = (Except.error (SwError.authError envKeyMsg), []) ∧
    getCurrentUserTool cfg resp = (Except.error (SwError.authError envKeyMsg), []) := by
  have ht : pyTruthyOptStr cfg.api_key = false := by rw [h]; rfl
  refine ⟨?_, ?_, ?_, ?_⟩ <;>
    simp [addExpenseTool, getUsersTool, getGroupsTool, getCurrentUserTool, ht]

/-- C9 witness: the gate applied to the empty-string-key configuration. -/
theorem c9_empty_key_fails_before_network_witness :
    addExpenseTool cfgEmpty argsEx respEmptyObj =
      (Except.error (SwError.authError envKeyMsg), []) ∧
    getUsersTool cfgEmpty respEmptyObj =
      (Except.error (SwError.authError envKeyMsg), []) ∧
    getGroupsTool cfgEmpty respEmptyObj =
      (Except.error (SwError.authError envKeyMsg), []) ∧
    getCurrentUserTool cfgEmpty respEmptyObj =
      (Except.error (SwError.authError envKeyMsg), []) :=
  c9_empty_key_fails_before_network cfgEmpty rfl argsEx respEmptyObj

/-- C10: whenever the `add_expense` tool returns a mapping, its `success`
flag is `true`; failures are raised errors and never returned mappings. -/
theorem c10_success_flag_always_true (cfg : SplitwiseConfig) (a : CreateExpenseArgs)
    (resp : HttpResponse) (out : PyDict)
    (h : (addExpenseTool cfg a resp).1 = Except.ok out) :
    List.lookup "success" out = some (JValue.bool true) := by
  unfold addExpenseTool at h
  by_cases ht : pyTruthyOptStr cfg.api_key
  · rw [if_pos ht] at h
    cases hc : clientCreateExpense cfg a resp with
    | mk r reqs =>
      rw [hc] at h
      cases r with
      | error e => simp at h
      | ok e =>
        simp at h
        rw [← h]
        rfl
  · rw [if_neg ht] at h
    simp at h

/-- C10 witness: a complete successful run of the tool. -/
theorem c10_success_flag_always_true_witness :
    List.lookup "success" (projectExpenseResult expenseEx) =
      some (JValue.bool true) :=
  c10_success_flag_always_true cfgEx argsEx respExpenseOk
    (projectExpenseResult expenseEx) rfl

/-- C5 counterexample: on a 200 response whose body lacks the `user` key,
`get_current_user` fails with a bare key-lookup error naming `user`, which is
not the malformed-response error carrying the raw body. -/
theorem c5_counterexample_user_key_error :
    (clientGetCurrentUser cfgEx respEmptyObj).1 =
      Except.error (SwError.keyError "user") ∧
    SwError.keyError "user" ≠ SwError.malformedResponse (JValue.obj []) := by
  constructor
  · rfl
  · intro hc
    exact SwError.noConfusion hc

/-- C5 (amended): on a success response missing the expected top-level key,
create expense fails with the malformed-response error carrying the raw body,
while the three read operations fail with a key-lookup error naming the
expected key (`user`, `groups`, `friends`); no operation returns a silent
empty result. -/
theorem c5_missing_top_level_key (cfg : SplitwiseConfig)
    (h : pyTruthyOptStr cfg.api_key = true) :
    (∀ fs : PyDict, List.lookup "user" fs = none →
      (clientGetCurrentUser cfg ⟨200, JValue.obj fs⟩).1 =
        Except.error (SwError.keyError "user")) ∧
    (∀ fs : PyDict, List.lookup "groups" fs = none →
      (clientGetGroups cfg ⟨200, JValue.obj fs⟩).1 =
        Except.error (SwError.keyError "groups")) ∧
    (∀ fs : PyDict, List.lookup "friends" fs = none →
      (clientGetFriends cfg ⟨200, JValue.obj fs⟩).1 =
        Except.error (SwError.keyError "friends")) ∧
    (∀ (a : CreateExpenseArgs) (fs : PyDict), List.lookup "expense" fs = none →
      (clientCreateExpense cfg a ⟨200, JValue.obj fs⟩).1 =
        Except.error (SwError.malformedResponse (JValue.obj fs))) := by
  have hkey : ∃ k, cfg.api_key = some k ∧ k ≠ "" := by
    cases hapi : cfg.api_key with
    | none =>
      rw [hapi] at h
      simp [pyTruthyOptStr] at h
    | some k =>
      rw [hapi] at h
      refine ⟨k, rfl, ?_⟩
      simpa [pyTruthyOptStr] using h
  obtain ⟨k, hk, hkne⟩ := hkey
  have hh : getHeaders cfg =
      Except.ok [("Authorization", "Bearer " ++ k), ("Content-Type", "application/json")] := by
    simp [getHeaders, hk, hkne]
  refine ⟨?_, ?_, ?_, ?_⟩
  · intro fs hfs
    unfold clientGetCurrentUser clientGet pyGetItem
    rw [hh]
    simp [hfs, httpSuccess]
  · intro fs hfs
    unfold clientGetGroups clientGet pyGetItem
    rw [hh]
    simp [hfs, httpSuccess]
  · intro fs hfs
    unfold clientGetFriends clientGet pyGetItem
    rw [hh]
    simp [hfs, httpSuccess]
  · intro a fs hfs
    unfold clientCreateExpense pyContains
    rw [hh]
    simp [hfs, httpSuccess]

/-- C5 witness: the amended theorem applied to create expense on an empty
200 body. -/
theorem c5_missing_top_level_key_witness :
    (clientCreateExpense cfgEx argsEx ⟨200, JValue.obj []⟩).1 =
      Except.error (SwError.malformedResponse (JValue.obj [])) :=
  (c5_missing_top_level_key cfgEx rfl).2.2.2 argsEx [] rfl

/-- A friend record whose first name carries a trailing space. -/
def userTrailingSpace : SplitwiseUser := { id := 1, first_name := "Ada " }

/-- A friend record with clean first and last names. -/
def userLovelace : SplitwiseUser :=
  { id := 1, first_name := "Ada", last_name := some "Lovelace" }

/-- C3 counterexample: a record with no last name whose first name ends in a
space is projected with `full_name` equal to the stripped first name, not to
`first_name` exactly — `str.strip()` removes surrounding whitespace of the
first name as well. -/
theorem c3_counterexample_trailing_space :
    List.lookup "full_name" (projectFriend userTrailingSpace) =
      some (JValue.str "Ada") ∧
    userTrailingSpace.last_name = none ∧
    ("Ada" : String) ≠ userTrailingSpace.first_name := by
  refine ⟨rfl, rfl, ?_⟩
  decide

/-- C3 (amended): `full_name` is `first_name + " " + (last_name or "")`
stripped of surrounding whitespace; hence for a first name free of
surrounding whitespace, a missing or empty last name yields exactly
`first_name`, and a non-empty clean last name (with non-empty first name)
yields first name, a single space, and the last name — uniformly in all
three projections. -/
theorem c3_full_name_derivation (u : SplitwiseUser)
    (hf : pyStrip u.first_name = u.first_name) :
    ((u.last_name = none ∨ u.last_name = some "") →
      (List.lookup "full_name" (projectFriend u) = some (JValue.str u.first_name) ∧
       List.lookup "full_name" (projectMember u) = some (JValue.str u.first_name) ∧
       List.lookup "full_name" (projectCurrentUser u) = some (JValue.str u.first_name))) ∧
    (∀ s : String, u.last_name = some s → s ≠ "" → pyStrip s = s →
      u.first_name ≠ "" →
      (List.lookup "full_name" (projectFriend u) =
        some (JValue.str (u.first_name ++ " " ++ s)) ∧
       List.lookup "full_name" (projectMember u) =
        some (JValue.str (u.first_name ++ " " ++ s)) ∧
       List.lookup "full_name" (projectCurrentUser u) =
        some (JValue.str (u.first_name ++ " " ++ s)))) := by
  have e1 : List.lookup "full_name" (projectFriend u) =
      some (JValue.str (fullName u.first_name u.last_name)) := rfl
  have e2 : List.lookup "full_name" (projectMember u) =
      some (JValue.str (fullName u.first_name u.last_name)) := rfl
  have e3 : List.lookup "full_name" (projectCurrentUser u) =
      some (JValue.str (fullName u.first_name u.last_name)) := rfl
  constructor
  · intro hl
    have hc : fullName u.first_name u.last_name = u.first_name := by
      cases hl with
      | inl hl =>
        rw [hl]
        exact (fullName_no_last hf).1
      | inr hl =>
        rw [hl]
        exact (fullName_no_last hf).2
    rw [e1, e2, e3, hc]
    exact ⟨rfl, rfl, rfl⟩
  · intro s hl hsne hs hfne
    have hc : fullName u.first_name u.last_name = u.first_name ++ " " ++ s := by
      rw [hl]
      exact fullName_with_last hf hfne hs hsne
    rw [e1, e2, e3, hc]
    exact ⟨rfl, rfl, rfl⟩

/-- C3 witness: the amended derivation applied to a clean two-part name. -/
theorem c3_full_name_derivation_witness :
    List.lookup "full_name" (projectFriend userLovelace) =
      some (JValue.str ("Ada" ++ " " ++ "Lovelace")) :=
  (((c3_full_name_derivation userLovelace (by decide)).2 "Lovelace" rfl
    (by decide) (by decide) (by decide))).1

/-- An upstream group object with zero members. -/
def groupJsonZero : JValue :=
  JValue.obj
    [("id", JValue.int 9),
     ("name", JValue.str "Trip"),
     ("created_at", JValue.str "2024-03-01T00:00:00Z"),
     ("updated_at", JValue.str "2024-03-02T00:00:00Z"),
     ("members", JValue.arr []),
     ("simplify_by_default", JValue.bool false),
     ("original_debts", JValue.arr []),
     ("simplified_debts", JValue.arr [])]

/-- The validated form of `groupJsonZero`. -/
def gZero : SplitwiseGroup :=
  { id := 9, name := "Trip", created_at := "2024-03-01T00:00:00Z",
    updated_at := "2024-03-02T00:00:00Z", members := [],
    simplify_by_default := false, original_debts := [], simplified_debts := [] }

/-- A successful get-groups response holding one zero-member group. -/
def respGroupsZero : HttpResponse :=
  ⟨200, JValue.obj [("groups", JValue.arr [groupJsonZero])]⟩

/-- C7: every projected group's `member_count` equals the length of its
projected member list, and the debt lists are absent from the projection;
and a successful `getGroups` call over a zero-member group returns
`member_count` 0 with an empty member list rather than an error. -/
theorem c7_group_projection :
    (∀ g : SplitwiseGroup,
      List.lookup "members" (projectGroup g) =
        some (JValue.arr (g.members.map (fun m => JValue.obj (projectMember m)))) ∧
      List.lookup "member_count" (projectGroup g) =
        some (JValue.int (g.members.map (fun m => JValue.obj (projectMember m))).length) ∧
      List.lookup "original_debts" (projectGroup g) = none ∧
      List.lookup "simplified_debts" (projectGroup g) = none) ∧
    ((getGroupsTool cfgEx respGroupsZero).1 = Except.ok [projectGroup gZero] ∧
     List.lookup "member_count" (projectGroup gZero) = some (JValue.int 0) ∧
     List.lookup "members" (projectGroup gZero) = some (JValue.arr [])) := by
  constructor
  · intro g
    refine ⟨rfl, ?_, rfl, rfl⟩
    rw [List.length_map]
    rfl
  · exact ⟨rfl, rfl, rfl⟩
